import Mathlib

/-!
Shallow embedding of `redisclient.py` (tornado-redisclient): the RESP codec
(`encode`, `decode`), the pipeline session queue machinery
(`fetch`, `_maybe_callback`), and the streaming reply-reassembly state machine
(`_on_read_first_line`, `_on_read_bulk_line`, `_on_read_multibulk_linehead`,
`_on_read_multibulk_linebody`).

Byte strings are modelled as `List Char` (all the protocol bytes are ASCII;
Python 2 `str` is a byte string).  Callbacks are modelled by opaque
identifiers (`Nat`); whether a callback raises when invoked is a parameter.
-/

namespace RedisClient

/-- Convert a Lean string literal to the `List Char` byte-string model. -/
def toL (s : String) : List Char := s.toList

/-- Python whitespace as used by `str.strip()` / `int()`. -/
def isPySpace (c : Char) : Bool :=
  c = ' ' || c = '\t' || c = '\n' || c = '\r' || c = '\x0b' || c = '\x0c'

/-- Python `s.rstrip()`: drop trailing whitespace. -/
def pyRstrip (s : List Char) : List Char :=
  (s.reverse.dropWhile isPySpace).reverse

/-- Python `s.strip()`: drop leading and trailing whitespace. -/
def pyStrip (s : List Char) : List Char :=
  pyRstrip (s.dropWhile isPySpace)

/-- Numeric value of a digit run (caller checks all chars are digits). -/
def digitsVal (ds : List Char) : Nat :=
  ds.foldl (fun a c => 10 * a + (c.toNat - Char.toNat '0')) 0

/-- Python 2 `int(s)`: optional sign, then a non-empty digit run, with
surrounding whitespace ignored; `none` models a `ValueError`. -/
def parseInt (s : List Char) : Option Int :=
  match pyStrip s with
  | [] => none
  | '+' :: ds =>
    if ds ≠ [] ∧ ds.all Char.isDigit then some (digitsVal ds) else none
  | '-' :: ds =>
    if ds ≠ [] ∧ ds.all Char.isDigit then some (-(digitsVal ds : Int)) else none
  | ds =>
    if ds.all Char.isDigit then some (digitsVal ds) else none

/-- Model of `StringIO.readline()`: the line up to and including the first newline
(or everything, at end of data), paired with the rest. -/
def pyReadline : List Char → List Char × List Char
  | [] => ([], [])
  | c :: rest =>
    if c = '\n' then ([c], rest)
    else
      let p := pyReadline rest
      (c :: p.1, p.2)

/-- Model of `StringIO.read(n)`: the next `min n remaining` characters (a negative
count reads everything, as in Python file objects), paired with the rest. -/
def pyRead (n : Int) (s : List Char) : List Char × List Char :=
  if n < 0 then (s, []) else (s.take n.toNat, s.drop n.toNat)

/-- Python `s[:-2]` — all but the last two characters. -/
def dropLast2 (s : List Char) : List Char := s.dropLast.dropLast

/-- An element of a decoded multi-bulk reply: the `*` loop of `decode`
only ever appends Python ints (from `:` headers) or strings. -/
inductive PyElem where
  | eInt (n : Int) : PyElem
  | eStr (s : List Char) : PyElem
  deriving DecidableEq, Repr

/-- Decoded reply values: Python `True` / `int` / `str` / `None` / `list`. -/
inductive PyVal where
  | pyTrue : PyVal
  | pyInt (n : Int) : PyVal
  | pyStr (s : List Char) : PyVal
  | pyNone : PyVal
  | pyList (xs : List PyElem) : PyVal
  deriving DecidableEq, Repr

/-- Exceptions observable from the embedded code. -/
inductive PyExn where
  /-- Raised as `RedisError(line)` by `decode` on an Error (`-`) reply. -/
  | redisErrorReply (msg : List Char) : PyExn
  /-- Raised as `RedisError('Redis Reply TypeError: …', c)` on an unknown sigil
  (`none` when `read(1)` hit end of data). -/
  | redisErrorType (c : Option Char) : PyExn
  /-- Raised as `ValueError` from `int()`. -/
  | valueError : PyExn
  /-- Raised as `IndexError` from indexing an empty string (unreachable under the
  transport contract, modelled for totality). -/
  | indexError : PyExn
  /-- Exception raised by a user callback. -/
  | callbackException : PyExn
  /-- Raised as `TypeError` from calling `None` (no callback was ever registered). -/
  | noneNotCallable : PyExn
  /-- Marker for inputs on which the Python loop `while number:` never
  terminates (a multi-bulk count below `-1`). -/
  | nonTermination : PyExn
  deriving DecidableEq, Repr

instance : DecidableEq (Except PyExn PyVal) := fun a b =>
  match a, b with
  | .ok x, .ok y => decidable_of_iff (x = y) (by simp)
  | .error x, .error y => decidable_of_iff (x = y) (by simp)
  | .ok _, .error _ => isFalse (fun h => Except.noConfusion h)
  | .error _, .ok _ => isFalse (fun h => Except.noConfusion h)

/-- The element loop of `decode`'s `*` branch (`while number:` with
`number -= 1` each iteration); `none` models a `ValueError` from `int()`. -/
def decodeElems : Nat → List Char → Option (List PyElem)
  | 0, _ => some []
  | Nat.succ k, s =>
    match s with
    | '$' :: s1 =>
      let p := pyReadline s1
      match parseInt p.1 with
      | none => none
      | some len =>
        let q := pyRead len p.2
        let r := pyRead 2 q.2
        (decodeElems k r.2).map (fun xs => PyElem.eStr q.1 :: xs)
    | ':' :: s1 =>
      let p := pyReadline s1
      match parseInt p.1 with
      | none => none
      | some n => (decodeElems k p.2).map (fun xs => PyElem.eInt n :: xs)
    | _ :: s1 =>
      let p := pyReadline s1
      (decodeElems k p.2).map (fun xs => PyElem.eStr (dropLast2 p.1) :: xs)
    | [] =>
      let p := pyReadline ([] : List Char)
      (decodeElems k p.2).map (fun xs => PyElem.eStr (dropLast2 p.1) :: xs)

/-- Whole-buffer `decode(data)`: dispatch on the first byte (type sigil). -/
def decode (data : List Char) : Except PyExn PyVal :=
  match data with
  | [] => .error (.redisErrorType none)
  | c :: rest =>
    if c = '+' then .ok .pyTrue
    else if c = '-' then
      let p := pyReadline rest
      .error (.redisErrorReply (pyRstrip p.1))
    else if c = ':' then
      let p := pyReadline rest
      match parseInt p.1 with
      | none => .error .valueError
      | some n => .ok (.pyInt n)
    else if c = '$' then
      let p := pyReadline rest
      match parseInt p.1 with
      | none => .error .valueError
      | some n =>
        if n = -1 then .ok .pyNone
        else
          let q := pyRead n p.2
          .ok (.pyStr q.1)
    else if c = '*' then
      let p := pyReadline rest
      match parseInt p.1 with
      | none => .error .valueError
      | some n =>
        if n = -1 then .ok .pyNone
        else if n < 0 then .error .nonTermination
        else
          match decodeElems n.toNat p.2 with
          | none => .error .valueError
          | some xs => .ok (.pyList xs)
    else .error (.redisErrorType (some c))

/-- A command field: a Python string or integer; `str(x)` below. -/
inductive PyField where
  | s (v : List Char) : PyField
  | i (n : Int) : PyField
  deriving DecidableEq, Repr

/-- Decimal digits of a natural number (`'%d'`). -/
def natToStr (n : Nat) : List Char := Nat.toDigits 10 n

/-- Python `str(x)` for a command field. -/
def pyStrField : PyField → List Char
  | .s v => v
  | .i n => if n < 0 then '-' :: natToStr (-n).toNat else natToStr n.toNat

/-- Body of `encode`: `'*%d\r\n' % len(request)` followed by
`'$%d\r\n%s\r\n' % (len(str(x)), x)` for each field. -/
def encodeTuple (fs : List PyField) : List Char :=
  '*' :: natToStr fs.length ++ toL "\r\n"
    ++ (fs.map (fun x =>
         '$' :: natToStr (pyStrField x).length ++ toL "\r\n"
           ++ pyStrField x ++ toL "\r\n")).flatten

/-- A Python object passed to `encode`: a tuple of fields, or any
non-tuple object (including non-tuple sequences such as lists). -/
inductive PyObj where
  | tuple (fs : List PyField) : PyObj
  | nonTuple : PyObj
  deriving DecidableEq, Repr

/-- Model of `encode(request)`: `assert type(request) is tuple` then the frame;
`none` models the `AssertionError`. -/
def encodePy : PyObj → Option (List Char)
  | .tuple fs => some (encodeTuple fs)
  | .nonTuple => none

/-! ## Pipeline session: queues and dispatch (`fetch`, `_maybe_callback`) -/

/-- Parse stages of the streaming reassembly, named by the handler the
pending transport read will invoke. -/
inductive PState where
  | firstLine : PState
  | bulkBody : PState
  | multiHead : PState
  | multiBody : PState
  deriving DecidableEq, Repr

/-- A pending transport read request: `read_until('\r\n', …)` or
`read_bytes(n, …)`. -/
inductive ReadReq where
  | untilCRLF : ReadReq
  | bytes (n : Int) : ReadReq
  deriving DecidableEq, Repr

/-- The session's queue state: `_callback_queue` (a deque, appended on the
right by `fetch`, popped on the left by `_maybe_callback`), `_callback`
(the most recently registered callback), and `_result_queue`. -/
structure Session where
  callbackQueue : List Nat
  callback : Option Nat
  resultQueue : List (List Char)
  deriving DecidableEq, Repr

/-- Session state after `__init__` (before any `fetch`). -/
def initSession : Session :=
  { callbackQueue := [], callback := none, resultQueue := [] }

/-- The queue effects of `fetch(request, callback)`: set `_callback` and
append to `_callback_queue` (the encoded command is written to the
transport, which is outside this model). -/
def fetch (s : Session) (cb : Nat) : Session :=
  { s with callback := some cb, callbackQueue := s.callbackQueue ++ [cb] }

/-- Model of `fetch` including its first step `data = encode(request)`: if the
encode assertion fails the exception propagates to the caller and the
callback is never queued (`none`); otherwise the session after queueing. -/
def fetchReq (s : Session) (request : PyObj) (cb : Nat) : Option Session :=
  match encodePy request with
  | none => none
  | some _ => some (fetch s cb)

/-- Issue `fetch` for each callback in order. -/
def fetchAll (s : Session) (cbs : List Nat) : Session :=
  cbs.foldl fetch s

/-- Everything observable about one `_maybe_callback(data)` call. -/
structure DispatchOutcome where
  /-- Whether an entry was popped from `_callback_queue`. -/
  popped : Bool
  /-- The callback selected (popped, or the retained `_callback`). -/
  target : Option Nat
  /-- Holds `some v` exactly when `callback(result)` was reached with `result = v`. -/
  invokedWith : Option PyVal
  /-- The exception propagating out of the call, if any. -/
  raised : Option PyExn
  /-- The read re-armed by the `finally: self._wait_result()` clause:
  the parser stage it targets and the transport read it issues. -/
  rearm : Option (PState × ReadReq)
  deriving DecidableEq, Repr

/-- Model of `_maybe_callback(data)`.  `cbRaises cb v` tells whether user callback
`cb` raises when invoked with value `v`. -/
def maybeCallback (cbRaises : Nat → PyVal → Bool) (s : Session)
    (data0 : List Char) : Session × DispatchOutcome :=
  -- if self._result_queue: self._result_queue.append(data); data = popleft()
  let dq : List Char × List (List Char) :=
    match s.resultQueue with
    | [] => (data0, [])
    | r :: rs => (r, rs ++ [data0])
  -- if self._callback_queue: callback = popleft() else: callback = self._callback
  let pc : Bool × Option Nat × List Nat :=
    match s.callbackQueue with
    | c :: cs => (true, some c, cs)
    | [] => (false, s.callback, [])
  -- result = decode(data); callback(result) — an exception from decode
  -- (or from calling None, or from the callback) propagates; the
  -- `finally` clause re-arms `_wait_result` in every case.
  let ie : Option PyVal × Option PyExn :=
    match decode dq.1 with
    | .error e => (none, some e)
    | .ok v =>
      match pc.2.1 with
      | none => (none, some .noneNotCallable)
      | some cb => (some v, if cbRaises cb v then some .callbackException else none)
  ({ s with callbackQueue := pc.2.2, resultQueue := dq.2 },
   { popped := pc.1, target := pc.2.1, invokedWith := ie.1, raised := ie.2,
     rearm := some (.firstLine, .untilCRLF) })

/-- Dispatch a list of completed reply frames in arrival order, collecting
each call's outcome. -/
def processFrames (cbRaises : Nat → PyVal → Bool) :
    Session → List (List Char) → Session × List DispatchOutcome
  | s, [] => (s, [])
  | s, d :: ds =>
    let r := maybeCallback cbRaises s d
    let rest := processFrames cbRaises r.1 ds
    (rest.1, r.2 :: rest.2)

/-! ## Streaming reassembly state machine -/

/-- Per-reply parse state: the active stage, the read it is waiting on,
the accumulated frame bytes (`self._data`) and the remaining multi-bulk
element count (`self._multibulk_number`). -/
structure ParseState where
  ps : PState
  req : ReadReq
  acc : List Char
  num : Int
  deriving DecidableEq, Repr

/-- Result of running one read-completion handler. -/
inductive HandlerResult where
  /-- A further transport read was issued. -/
  | next (p : ParseState) : HandlerResult
  /-- Reached `_maybe_callback(self._data)`  with this frame. -/
  | complete (data : List Char) : HandlerResult
  /-- The handler fell through: no dispatch and no further read. -/
  | fatal : HandlerResult
  /-- An exception escaped the handler before any dispatch or read. -/
  | exn (e : PyExn) : HandlerResult
  deriving DecidableEq, Repr

/-- Model of `_on_read_first_line(data)`. -/
def onReadFirstLine (data : List Char) : HandlerResult :=
  match data with
  | [] => .exn .indexError     -- data[0]; unreachable: read_until delivers ≥ 2 bytes
  | c :: _ =>
    if c = '+' ∨ c = '-' ∨ c = ':' then .complete data
    else if c = '$' then
      if data.take 3 = toL "$-1" then .complete data
      else
        match parseInt (data.drop 1) with
        | none => .exn .valueError
        | some len => .next ⟨.bulkBody, .bytes (len + 2), data, 0⟩
    else if c = '*' then
      match data with
      | _ :: d1 :: _ =>
        if d1 = '-' ∨ d1 = '0' then .complete data
        else
          match parseInt (data.drop 1) with
          | none => .exn .valueError
          | some n => .next ⟨.multiHead, .untilCRLF, data, n⟩
      | _ => .exn .indexError  -- data[1]; unreachable likewise
    else .fatal

/-- Model of `_on_read_bulk_line(data)`. -/
def onReadBulkLine (acc chunk : List Char) : HandlerResult :=
  .complete (acc ++ chunk)

/-- Model of `_on_read_multibulk_linehead(data)`. -/
def onReadMultibulkLinehead (acc : List Char) (num : Int)
    (chunk : List Char) : HandlerResult :=
  let acc1 := acc ++ chunk
  match chunk with
  | [] => .exn .indexError     -- data[0]; unreachable
  | c :: _ =>
    if c = '$' then
      match parseInt (chunk.drop 1) with
      | none => .exn .valueError
      | some len => .next ⟨.multiBody, .bytes (len + 2), acc1, num⟩
    else .complete acc1

/-- Model of `_on_read_multibulk_linebody(data)`. -/
def onReadMultibulkLinebody (acc : List Char) (num : Int)
    (chunk : List Char) : HandlerResult :=
  let acc1 := acc ++ chunk
  let num1 := num - 1
  if num1 ≠ 0 then .next ⟨.multiHead, .untilCRLF, acc1, num1⟩
  else .complete acc1

/-- Invoke the handler registered by the parse state's pending read. -/
def stepHandler (p : ParseState) (chunk : List Char) : HandlerResult :=
  match p.ps with
  | .firstLine => onReadFirstLine chunk
  | .bulkBody => onReadBulkLine p.acc chunk
  | .multiHead => onReadMultibulkLinehead p.acc p.num chunk
  | .multiBody => onReadMultibulkLinebody p.acc p.num chunk

/-- Split a buffer at the first CRLF, returning the delivered span
(delimiter included, as `read_until` delivers it) and the remainder. -/
def splitCRLF : List Char → Option (List Char × List Char)
  | [] => none
  | '\r' :: '\n' :: rest => some (['\r', '\n'], rest)
  | c :: rest =>
    (splitCRLF rest).map (fun p => (c :: p.1, p.2))

/-- Try to satisfy a pending read request from the receive buffer. -/
def takeReq : ReadReq → List Char → Option (List Char × List Char)
  | .untilCRLF, buf => splitCRLF buf
  | .bytes n, buf =>
    if n ≤ 0 then some ([], buf)
    else if n.toNat ≤ buf.length then some (buf.take n.toNat, buf.drop n.toNat)
    else none

/-- Lifecycle status of one in-flight reply. -/
inductive MachineStatus where
  | running (p : ParseState) : MachineStatus
  | done (data : List Char) : MachineStatus
  | fatal : MachineStatus
  | exn (e : PyExn) : MachineStatus
  deriving DecidableEq, Repr

/-- The streaming machine: its status plus the bytes the transport has
received but not yet delivered to a handler. -/
structure Machine where
  status : MachineStatus
  buffer : List Char
  deriving DecidableEq, Repr

/-- Deliver satisfied reads to handlers until the machine stalls
(insufficient buffered bytes), completes, or stops. -/
def drain : Nat → Machine → Machine
  | 0, m => m
  | Nat.succ k, m =>
    match m.status with
    | .running p =>
      match takeReq p.req m.buffer with
      | none => m
      | some (chunk, rest) =>
        match stepHandler p chunk with
        | .next p1 => drain k ⟨.running p1, rest⟩
        | .complete d => ⟨.done d, rest⟩
        | .fatal => ⟨.fatal, rest⟩
        | .exn e => ⟨.exn e, rest⟩
    | _ => m

/-- Append a newly received chunk to the buffer and drain.  The fuel bound
suffices: every `untilCRLF` delivery consumes at least two buffered bytes
and zero-byte deliveries never chain. -/
def feed (m : Machine) (chunk : List Char) : Machine :=
  drain (2 * (m.buffer.length + chunk.length) + 4)
    { m with buffer := m.buffer ++ chunk }

/-- A machine waiting for the first line of a reply (`_wait_result`). -/
def initMachine : Machine :=
  ⟨.running ⟨.firstLine, .untilCRLF, [], 0⟩, []⟩

/-- Feed a list of received chunks in order. -/
def feedAll (chunks : List (List Char)) : Machine :=
  chunks.foldl feed initMachine

/-- The decoded result of a streamed reply: `some (decode frame)` when the
machine completed a frame and dispatched it, `none` otherwise. -/
def streamDecode (chunks : List (List Char)) : Option (Except PyExn PyVal) :=
  match (feedAll chunks).status with
  | .done d => some (decode d)
  | _ => none

/-! ## Definitions used only to state the claims -/

/-- The reply frames of the specification's section-6 format table. -/
def framesTable : List (List Char) :=
  [toL "+OK\r\n", toL "-ERR message\r\n", toL ":42\r\n", toL "$3\r\nfoo\r\n",
   toL "$-1\r\n", toL "*2\r\n$3\r\nfoo\r\n$3\r\nbar\r\n", toL "*-1\r\n"]

/-- The value of a successful decode (junk default on error). -/
def okVal : Except PyExn PyVal → PyVal
  | .ok v => v
  | .error _ => .pyNone

/-- The outcome of a successful FIFO dispatch: callback `cb` popped and
invoked with value `v`, nothing raised, read re-armed. -/
def okOutcome (cb : Nat) (v : PyVal) : DispatchOutcome :=
  { popped := true, target := some cb, invokedWith := some v, raised := none,
    rearm := some (.firstLine, .untilCRLF) }

/-- The request wire frame exactly as the specification words it: a header
`*<count>\r\n` followed, for each (stringified) field, by
`$<byte-length>\r\n<field-bytes>\r\n`. -/
def respRequestFrame (fields : List (List Char)) : List Char :=
  toL "*" ++ natToStr fields.length ++ toL "\r\n"
    ++ (fields.map (fun f =>
         toL "$" ++ natToStr f.length ++ toL "\r\n" ++ f ++ toL "\r\n")).flatten

/-! ## Helper lemmas -/

/-- Unfolding of the one-character string `"*"`. -/
theorem toL_star : toL "*" = ['*'] := rfl

/-- Unfolding of the one-character string `"$"`. -/
theorem toL_dollar : toL "$" = ['$'] := rfl

/-- One successful dispatch step: with an empty result queue, a non-empty
callback queue and a cleanly decoding frame, `_maybe_callback` pops the
head callback and invokes it with the decoded value. -/
theorem maybeCallback_ok (s : Session) (c : Nat) (cs : List Nat)
    (d : List Char) (v : PyVal)
    (hr : s.resultQueue = []) (hq : s.callbackQueue = c :: cs)
    (hd : decode d = .ok v) :
    maybeCallback (fun _ _ => false) s d =
      ({ s with callbackQueue := cs, resultQueue := [] }, okOutcome c v) := by
  simp [maybeCallback, hr, hq, hd, okOutcome]

/-- FIFO dispatch over a session whose callback queue is `cbs`: processing
one cleanly decoding frame per queued callback pairs them up in order. -/
theorem processFrames_fifo :
    ∀ (frames : List (List Char)) (cbs : List Nat) (s : Session),
    s.callbackQueue = cbs → s.resultQueue = [] →
    frames.length = cbs.length →
    (∀ f ∈ frames, (decode f).isOk = true) →
    (processFrames (fun _ _ => false) s frames).2 =
      List.zipWith (fun cb f => okOutcome cb (okVal (decode f))) cbs frames := by
  intro frames
  induction frames with
  | nil =>
    intro cbs s _ _ hlen _
    cases cbs with
    | nil => rfl
    | cons c cs => simp at hlen
  | cons d ds ih =>
    intro cbs s hq hr hlen hok
    cases cbs with
    | nil => simp at hlen
    | cons c cs =>
      have hokd := hok d (by simp)
      cases hd : decode d with
      | error e => rw [hd] at hokd; simp [Except.isOk, Except.toBool] at hokd
      | ok v =>
        have hstep := maybeCallback_ok s c cs d v hr hq hd
        simp only [processFrames, hstep]
        rw [ih cs { s with callbackQueue := cs, resultQueue := [] } rfl rfl
          (by simpa using hlen) (fun f hf => hok f (by simp [hf]))]
        simp [List.zipWith, hd, okVal]

/-- The queue effects of a run of `fetch` calls: the callbacks are appended
to the callback queue in call order; the result queue is untouched. -/
theorem fetchAll_fields :
    ∀ (cbs : List Nat) (s : Session),
    (fetchAll s cbs).callbackQueue = s.callbackQueue ++ cbs ∧
    (fetchAll s cbs).resultQueue = s.resultQueue := by
  intro cbs
  induction cbs with
  | nil => intro s; simp [fetchAll]
  | cons c cs ih =>
    intro s
    have h := ih (fetch s c)
    simp only [fetchAll, List.foldl] at h ⊢
    simpa [fetch, List.append_assoc] using h

/-- Draining does nothing once the machine has stopped fatally. -/
theorem drain_fatal (fuel : Nat) (buf : List Char) :
    drain fuel ⟨.fatal, buf⟩ = ⟨.fatal, buf⟩ := by
  cases fuel <;> rfl

/-! ## Claim theorems -/

/-- C1: for every sequence of `fetch` calls issued on one session before any
reply arrives, if the reply frames are dispatched in the order the requests
were written (and each decodes cleanly), then the i-th registered callback
is the one popped for the i-th completed reply and it is invoked with the
decoded reply of its own request — strict FIFO pairing. -/
theorem fifo_pipelining (cbs : List Nat) (frames : List (List Char))
    (hlen : frames.length = cbs.length)
    (hok : ∀ f ∈ frames, (decode f).isOk = true) :
    (processFrames (fun _ _ => false) (fetchAll initSession cbs) frames).2 =
      List.zipWith (fun cb f => okOutcome cb (okVal (decode f))) cbs frames := by
  refine processFrames_fifo frames cbs (fetchAll initSession cbs) ?_ ?_ hlen hok
  · simpa [initSession] using (fetchAll_fields cbs initSession).1
  · simpa [initSession] using (fetchAll_fields cbs initSession).2

/-- Witness for C1 at two pipelined requests. -/
theorem fifo_pipelining_witness :
    (processFrames (fun _ _ => false) (fetchAll initSession [1, 2])
        [toL "+OK\r\n", toL ":7\r\n"]).2 =
      List.zipWith (fun cb f => okOutcome cb (okVal (decode f))) [1, 2]
        [toL "+OK\r\n", toL ":7\r\n"] :=
  fifo_pipelining [1, 2] [toL "+OK\r\n", toL ":7\r\n"] (by decide) (by decide)

/-- C2 counterexample: with exactly one pending callback and the Error
reply frame `-ERR bad arg\r\n`, `_maybe_callback` pops that callback from
the queue but never invokes it: `decode` raises before `callback(result)`
is reached (`invokedWith = none`), and the `RedisError` is re-raised past
the callback — contradicting the claim that the popped callback is still
invoked with the error condition. -/
theorem error_reply_thrown_past_callback :
    (maybeCallback (fun _ _ => false) ⟨[0], some 0, []⟩
        (toL "-ERR bad arg\r\n")).2 =
      { popped := true, target := some 0, invokedWith := none,
        raised := some (.redisErrorReply (toL "ERR bad arg")),
        rearm := some (.firstLine, .untilCRLF) } := by
  decide

/-- C2 amended: when whole-buffer decode of a completed frame fails (an
Error reply or a malformed-frame fault), the matching pending callback is
still popped from the queue, but it is *not* invoked — the failure
propagates as an exception past the callback — and the session still
re-arms its read for the next reply. -/
theorem decode_failure_dispatch (cbR : Nat → PyVal → Bool) (s : Session)
    (data : List Char) (e : PyExn)
    (hr : s.resultQueue = []) (h : decode data = .error e) :
    (maybeCallback cbR s data).2.invokedWith = none ∧
    (maybeCallback cbR s data).2.raised = some e ∧
    (s.callbackQueue ≠ [] → (maybeCallback cbR s data).2.popped = true) ∧
    (maybeCallback cbR s data).2.rearm = some (.firstLine, .untilCRLF) := by
  cases hq : s.callbackQueue <;> simp [maybeCallback, hr, hq, h]

/-- Witness for C2's amended claim at a malformed (unknown-sigil) frame. -/
theorem decode_failure_dispatch_witness :
    (maybeCallback (fun _ _ => false) ⟨[3], some 3, []⟩ (toL "!oops\r\n")).2.invokedWith
        = none ∧
    (maybeCallback (fun _ _ => false) ⟨[3], some 3, []⟩ (toL "!oops\r\n")).2.raised
        = some (.redisErrorType (some '!')) ∧
    (([3] : List Nat) ≠ [] →
      (maybeCallback (fun _ _ => false) ⟨[3], some 3, []⟩ (toL "!oops\r\n")).2.popped = true) ∧
    (maybeCallback (fun _ _ => false) ⟨[3], some 3, []⟩ (toL "!oops\r\n")).2.rearm
        = some (.firstLine, .untilCRLF) :=
  decode_failure_dispatch (fun _ _ => false) ⟨[3], some 3, []⟩ (toL "!oops\r\n")
    (.redisErrorType (some '!')) rfl (by decide)

/-- C3: for every reply frame in the section-6 format table, feeding its
bytes to the streaming reassembly machine as one chunk, as two chunks split
at an arbitrary point, or byte-by-byte yields the same decoded reply (or
the same error condition) as whole-buffer `decode` of the complete frame. -/
theorem streaming_equivalence :
    ∀ F ∈ framesTable,
      streamDecode [F] = some (decode F) ∧
      (∀ i, i ≤ F.length → streamDecode [F.take i, F.drop i] = some (decode F)) ∧
      streamDecode (F.map (fun c => [c])) = some (decode F) := by
  decide

/-- Witness for C3: the bulk frame split after its fourth byte. -/
theorem streaming_equivalence_witness :
    streamDecode [(toL "$3\r\nfoo\r\n").take 4, (toL "$3\r\nfoo\r\n").drop 4] =
      some (decode (toL "$3\r\nfoo\r\n")) :=
  (streaming_equivalence (toL "$3\r\nfoo\r\n") (by decide)).2.1 4 (by decide)

/-- C4 (code bug): while reassembling a multi-bulk reply with elements
remaining, delivery of an element-header line that does not start with `$`
should, per the claim, count as one scalar element and keep the machine in
the element-header state until the remaining count reaches zero.  The code
instead dispatches immediately: on `*2\r\n:1\r\n:2\r\n` the machine
completes after the first `:` element line with only `*2\r\n:1\r\n`
accumulated, leaving `:2\r\n` unconsumed in the buffer, and the dispatched
partial frame decodes differently from the full frame. -/
theorem multibulk_scalar_element_truncates :
    feedAll [toL "*2\r\n:1\r\n:2\r\n"] =
      ⟨.done (toL "*2\r\n:1\r\n"), toL ":2\r\n"⟩ ∧
    decode (toL "*2\r\n:1\r\n") = .ok (.pyList [.eInt 1, .eStr []]) ∧
    decode (toL "*2\r\n:1\r\n:2\r\n") = .ok (.pyList [.eInt 1, .eInt 2]) := by
  decide

/-- C5: `_maybe_callback` runs `self._wait_result()` in a `finally` clause,
so after every completed reply frame is dispatched — whether decode
succeeded, decode raised, or the invoked callback raised (any `cbRaises`,
any session state, any frame) — the session re-issues a read-until-CRLF
targeting the first-line handler, returning to the awaiting-first-line
state for the next reply. -/
theorem rearm_after_every_dispatch (cbRaises : Nat → PyVal → Bool)
    (s : Session) (data : List Char) :
    (maybeCallback cbRaises s data).2.rearm =
      some (PState.firstLine, ReadReq.untilCRLF) :=
  rfl

/-- C6: whole-buffer `decode` meets the section-8 test vectors. -/
theorem decode_test_vectors :
    decode (toL "+OK\r\n") = .ok .pyTrue ∧
    decode (toL ":42\r\n") = .ok (.pyInt 42) ∧
    decode (toL "$-1\r\n") = .ok .pyNone ∧
    decode (toL "*-1\r\n") = .ok .pyNone ∧
    decode (toL "$3\r\nfoo\r\n") = .ok (.pyStr (toL "foo")) ∧
    decode (toL "-ERR bad arg\r\n") =
      .error (.redisErrorReply (toL "ERR bad arg")) ∧
    decode (toL "*4\r\n$3\r\nfoo\r\n$3\r\nbar\r\n$5\r\nhello\r\n:42\r\n") =
      .ok (.pyList [.eStr (toL "foo"), .eStr (toL "bar"),
                    .eStr (toL "hello"), .eInt 42]) := by
  decide

/-- C7: for every non-empty command tuple, `encode` produces exactly the
header `*<count>\r\n` followed, for each field in order, by
`$<byte-length-of-str(x)>\r\n<str(x)>\r\n`; in particular
`encode(("SET","foo","bar"))` is `*3\r\n$3\r\nSET\r\n$3\r\nfoo\r\n$3\r\nbar\r\n`. -/
theorem encode_request_frame (fs : List PyField) (h : fs ≠ []) :
    encodePy (.tuple fs) = some (respRequestFrame (fs.map pyStrField)) ∧
    encodePy (.tuple [.s (toL "SET"), .s (toL "foo"), .s (toL "bar")]) =
      some (toL "*3\r\n$3\r\nSET\r\n$3\r\nfoo\r\n$3\r\nbar\r\n") := by
  constructor
  · simp [encodePy, encodeTuple, respRequestFrame, List.map_map, toL_star,
      toL_dollar, Function.comp_def]
  · decide

/-- Witness for C7 at the tuple `("SET", "foo", "bar")`. -/
theorem encode_request_frame_witness :
    encodePy (.tuple [.s (toL "SET"), .s (toL "foo"), .s (toL "bar")]) =
      some (respRequestFrame
        ([PyField.s (toL "SET"), .s (toL "foo"), .s (toL "bar")].map pyStrField)) ∧
    encodePy (.tuple [.s (toL "SET"), .s (toL "foo"), .s (toL "bar")]) =
      some (toL "*3\r\n$3\r\nSET\r\n$3\r\nfoo\r\n$3\r\nbar\r\n") :=
  encode_request_frame [.s (toL "SET"), .s (toL "foo"), .s (toL "bar")]
    (by decide)

/-- C8 counterexample: the claim says `encode` fails on an empty sequence,
but the empty tuple passes `assert type(request) is tuple` and `encode`
returns the wire frame `*0\r\n` — no failure is signalled. -/
theorem encode_empty_tuple_accepted :
    encodePy (.tuple []) = some (toL "*0\r\n") := by
  decide

/-- C8 amended: `encode` fails with a precondition violation (the
assertion) exactly when its input is not a tuple — including non-tuple
sequences; any tuple is accepted, and in particular the empty tuple
produces `*0\r\n` rather than failing.  The failure surfaces to the
caller of `fetch` before any callback is queued. -/
theorem encode_precondition :
    (∀ o : PyObj, encodePy o = none ↔ o = .nonTuple) ∧
    encodePy (.tuple []) = some (toL "*0\r\n") ∧
    (∀ (s : Session) (cb : Nat), fetchReq s .nonTuple cb = none) := by
  refine ⟨fun o => ?_, by decide, fun s cb => rfl⟩
  cases o <;> simp [encodePy]

/-- C9: if the first line of a new reply frame begins with any byte other
than `+`, `-`, `:`, `$` or `*`, `_on_read_first_line` falls through every
branch: no pending callback is dispatched and no further transport read is
issued (the `fatal` outcome), and a fatally stopped machine never
dispatches or reads again however many further bytes arrive. -/
theorem unknown_sigil_no_dispatch_no_rearm (c : Char) (rest : List Char)
    (h1 : c ≠ '+') (h2 : c ≠ '-') (h3 : c ≠ ':') (h4 : c ≠ '$') (h5 : c ≠ '*') :
    onReadFirstLine (c :: rest) = .fatal ∧
    ∀ (buf chunk : List Char), (feed ⟨.fatal, buf⟩ chunk).status = .fatal := by
  constructor
  · simp [onReadFirstLine, h1, h2, h3, h4, h5]
  · intro buf chunk
    simp [feed, drain_fatal]

/-- Witness for C9 at the frame line `!bad\r\n`. -/
theorem unknown_sigil_witness :
    onReadFirstLine ('!' :: toL "bad\r\n") = .fatal :=
  (unknown_sigil_no_dispatch_no_rearm '!' (toL "bad\r\n") (by decide)
    (by decide) (by decide) (by decide) (by decide)).1

/-- C10: when a complete reply is dispatched while the pending-callback
queue is empty, `_maybe_callback` selects the retained `_callback` (set by
the most recent `fetch`) without popping anything, leaves both the queue
and `_callback` unchanged — so the same callback is selected again for
every further unsolicited reply — and invokes it with the decoded value;
if no `fetch` was ever made (`_callback` is `None`) there is no callback
to invoke. -/
theorem unsolicited_reply_fallback (cbR : Nat → PyVal → Bool) (s : Session)
    (data : List Char) (hq : s.callbackQueue = []) (hr : s.resultQueue = []) :
    (maybeCallback cbR s data).2.popped = false ∧
    (maybeCallback cbR s data).2.target = s.callback ∧
    (maybeCallback cbR s data).1.callback = s.callback ∧
    (maybeCallback cbR s data).1.callbackQueue = [] ∧
    (maybeCallback cbR s data).1.resultQueue = [] ∧
    (∀ cb v, s.callback = some cb → decode data = .ok v →
      (maybeCallback cbR s data).2.invokedWith = some v) ∧
    (s.callback = none → (maybeCallback cbR s data).2.invokedWith = none) ∧
    (∀ (t : Session) (cb : Nat), (fetch t cb).callback = some cb) := by
  refine ⟨?_, ?_, ?_, ?_, ?_, ?_, ?_, ?_⟩
  · simp [maybeCallback, hq, hr]
  · simp [maybeCallback, hq, hr]
  · simp [maybeCallback, hq, hr]
  · simp [maybeCallback, hq, hr]
  · simp [maybeCallback, hq, hr]
  · intro cb v hcb hd
    simp [maybeCallback, hq, hr, hcb, hd]
  · intro hcb
    cases hd : decode data <;> simp [maybeCallback, hq, hr, hcb, hd]
  · intro t cb
    rfl

/-- Witness for C10: a session whose only registered callback was retained
in `_callback`, receiving an unsolicited `+OK` reply. -/
theorem unsolicited_reply_fallback_witness :
    (maybeCallback (fun _ _ => false) ⟨[], some 5, []⟩ (toL "+OK\r\n")).2.target
      = some 5 :=
  (unsolicited_reply_fallback (fun _ _ => false) ⟨[], some 5, []⟩
    (toL "+OK\r\n") rfl rfl).2.1

end RedisClient
